import Mathlib

/-!
# AquesTalk sample clients: the dialog client and the command-line sample

A shallow embedding of `samples/AqTk1App/AqTk1AppDlg.cpp` and
`samples/HelloTalk/HelloTalk.cpp`.

The synthesis engine is a closed binary.  Each call of `AquesTalk_Synthe` is
therefore answered by an arbitrary `EngineRet` (returned address, 0 for NULL,
and the value written to `*pSize`), supplied from outside; theorems quantify
over all answers.  Every call the clients make to the engine, the sound
service, the message box and the C library is recorded as an `Event`, in
program order.
-/

namespace AquesTalk

/-! ## Strings -/

/-- The text of a `CString` (and of a C string literal), character by character. -/
abbrev CString := List Char

/-- Scanning loop of `CString::Replace(old, new)`: left to right, every
occurrence of `old` found at the cursor is replaced by `new` and the cursor
moves past it; the counter holds how many characters of a matched occurrence
are still to be skipped. -/
def ReplaceAux (old new : CString) : Nat → CString → CString
  | _, [] => []
  | k + 1, _ :: cs => ReplaceAux old new k cs
  | 0, c :: cs =>
      if old.isPrefixOf (c :: cs) then new ++ ReplaceAux old new (old.length - 1) cs
      else c :: ReplaceAux old new 0 cs

/-- The method `CString::Replace(old, new)`; an empty `old` leaves the string unchanged. -/
def Replace (s old new : CString) : CString :=
  if old = [] then s else ReplaceAux old new 0 s

/-- The method `CString::Format(fmt, v)`, and `fprintf(_, fmt, v)` with one `int` argument:
the first `%d` of the format becomes the decimal text of `v`. -/
def Format : CString → Int → CString
  | [], _ => []
  | c :: rest, v =>
      if c = '%' ∧ rest.head? = some 'd' then (toString v).toList ++ rest.tail
      else c :: Format rest v

/-! ## The engine and the recorded calls -/

/-- What one call of `AquesTalk_Synthe` gives back: the returned address
(`0` is NULL) and the value stored through `pSize` (byte count, or the error
code when the address is NULL). -/
structure EngineRet where
  wav : Nat
  size : Int
deriving DecidableEq, Repr

/-- Calls made by the clients, in program order. -/
inductive Event where
  /-- Call of `AquesTalk_SetDevKey(key)`. -/
  | SetDevKey (key : CString)
  /-- Call of `AquesTalk_SetUsrKey(key)`. -/
  | SetUsrKey (key : CString)
  /-- Range prompt of `DDV_MinMaxInt(pDX, value, lo, hi)` when a saved value is out of range. -/
  | RangePrompt (lo hi : Int)
  /-- Call of `AfxMessageBox(msg)`. -/
  | MessageBox (msg : CString)
  /-- Call of `AquesTalk_Synthe(koe, iSpeed, &size)`, with the answer of the engine. -/
  | Synthe (koe : CString) (iSpeed : Int) (ret : EngineRet)
  /-- The assignment `m_wav = ...` of the play handler. -/
  | AssignWav (wav : Nat)
  /-- Call of `AquesTalk_FreeWave(wav)`. -/
  | FreeWave (wav : Nat)
  /-- Call of `PlaySound((LPCSTR)NULL, NULL, SND_MEMORY)`: playback is stopped. -/
  | PlaySoundStop
  /-- Call of `PlaySound((LPCSTR)wav, NULL, SND_MEMORY | SND_ASYNC)`: playback is started. -/
  | PlaySoundAsync (wav : Nat)
  /-- Call of `CDialogEx::OnClose()`: the window is closed. -/
  | WindowClose
  /-- Call of `fprintf(stderr, ...)`, with the formatted text. -/
  | Stderr (text : CString)
  /-- Call of `fopen(path, mode)`, with the stream it returns (`0` is NULL). -/
  | Fopen (path mode : CString) (fp : Nat)
  /-- Call of `fwrite(ptr, 1, n, fp)`, with the `n` bytes that start at `ptr`. -/
  | Fwrite (bytes : List Nat) (fp : Nat)
  /-- Call of `fclose(fp)`. -/
  | Fclose (fp : Nat)
deriving DecidableEq, Repr

/-- Is the event a call of `AquesTalk_Synthe`? -/
def Event.isSynthe : Event → Bool
  | .Synthe _ _ _ => true
  | _ => false

/-- Is the event a call of `AfxMessageBox`? -/
def Event.isMessageBox : Event → Bool
  | .MessageBox _ => true
  | _ => false

/-! ## The dialog client -/

/-- The trackbar control `IDC_SPEED` (a platform control, outside the
repository): its range and thumb position. -/
structure Slider where
  lo : Int
  hi : Int
  pos : Int
deriving DecidableEq, Repr

/-- The trackbar keeps its position inside its range. -/
def Slider.clamp (lo hi p : Int) : Int :=
  if p < lo then lo else if hi < p then hi else p

/-- The method `CSliderCtrl::SetRange(lo, hi)`: a position outside the new range moves to its nearest end. -/
def Slider.SetRange (s : Slider) (lo hi : Int) : Slider :=
  { lo := lo, hi := hi, pos := Slider.clamp lo hi s.pos }

/-- The method `CSliderCtrl::SetPos(p)`, also the thumb being dragged: a position outside
the range becomes its nearest end. -/
def Slider.SetPos (s : Slider) (p : Int) : Slider :=
  { s with pos := Slider.clamp s.lo s.hi p }

/-- The dialog object with its two controls and the sound service.
`m_strKoe`, `m_wav` (0 is NULL) and `m_iSpeed` are the members of
`CAqTk1AppDlg`; `edit` is the text of `IDC_EDIT1`, `slider` the trackbar
`IDC_SPEED`; `playing` is the buffer whose asynchronous playback was started by
`PlaySound` and not stopped since. -/
structure Dlg where
  m_strKoe : CString
  m_wav : Nat
  m_iSpeed : Int
  edit : CString
  slider : Slider
  playing : Option Nat
deriving DecidableEq, Repr

/-- The constructor `CAqTk1AppDlg::CAqTk1AppDlg`: the member initialisers; the
controls are in their creation state (empty edit field, trackbar 0..100 at 0). -/
def CAqTk1AppDlg : Dlg :=
  { m_strKoe := "ばくおんが、ぎんせ\x27かいの/こーげんに/ひろがる。".toList
    m_wav := 0
    m_iSpeed := 0
    edit := []
    slider := { lo := 0, hi := 100, pos := 0 }
    playing := none }

/-- The method `CAqTk1AppDlg::DoDataExchange`, run by `UpdateData(save)`.
Saving: `DDX_Text` copies the edit field to `m_strKoe`, `DDX_Slider` copies the
trackbar position to `m_iSpeed`, and `DDV_MinMaxInt(.., 50, 200)` prompts when
the value is out of range (the stored value stays).  Loading: the members are
written to the controls. -/
def DoDataExchange (save : Bool) (d : Dlg) : Dlg × List Event :=
  if save then
    let d1 := { d with m_strKoe := d.edit }
    let d2 := { d1 with m_iSpeed := d1.slider.pos }
    if d2.m_iSpeed < 50 ∨ 200 < d2.m_iSpeed then (d2, [Event.RangePrompt 50 200])
    else (d2, [])
  else
    let d1 := { d with edit := d.m_strKoe }
    let d2 := { d1 with slider := d1.slider.SetPos d1.m_iSpeed }
    (d2, [])

/-- The call `UpdateData(bSaveAndValidate)`; the handlers ignore its result. -/
def UpdateData (save : Bool) (d : Dlg) : Dlg × List Event :=
  DoDataExchange save d

/-- The method `CAqTk1AppDlg::OnInitDialog`. -/
def OnInitDialog (d : Dlg) : Dlg × List Event :=
  -- CDialogEx::OnInitDialog() loads the members into the controls
  let (d0, e0) := UpdateData false d
  let d1 := { d0 with m_iSpeed := 100 }
  let d2 := { d1 with slider := d1.slider.SetRange 50 200 }
  -- SetPageSize(10) only sets the keyboard step of the thumb
  let d3 := { d2 with slider := d2.slider.SetPos d2.m_iSpeed }
  let e1 := [Event.SetDevKey "xxxxxx".toList, Event.SetUsrKey "yyyyyy".toList]
  let (d4, e2) := UpdateData false d3
  (d4, e0 ++ e1 ++ e2)

/-- The message of `Synthe` for an empty phonetic string. -/
def errNoKoe : CString := "ERR:音声記号列が指定されていない".toList

/-- The failure branch of `CAqTk1AppDlg::Synthe`: the text `sss` built from the
error code left in `size`. -/
def SyntheErrMsg (size : Int) : CString :=
  if size = 105 then Format "ERR: 音声記号列に未定義の読み記号が指定された。(%d)".toList size
  else if size = 106 ∨ size = 107 ∨ size = 108 then
    Format "ERR: 音声記号列のタグの指定が正しくない。(%d)".toList size
  else if 200 ≤ size ∧ size ≤ 204 then Format "ERR: 音声記号列が長すぎる。(%d)".toList size
  else if 900 ≤ size ∧ size ≤ 999 then Format "ERR: Profileの指定エラー(%d)".toList size
  else Format "ERR:音声記号列が正しくない？(%d)".toList size

/-- Result of `Synthe`: the returned address, the value written to `*pSize`
(if any), the dialog afterwards and the calls made. -/
structure SyntheOut where
  ret : Nat
  pSize : Option Int
  dlg : Dlg
  events : List Event

/-- The method `CAqTk1AppDlg::Synthe`; `r` is the engine's answer in case the engine is called. -/
def Synthe (r : EngineRet) (d : Dlg) : SyntheOut :=
  let (d1, e1) := UpdateData true d
  let koe := d1.m_strKoe
  let koe := Replace koe "\r".toList "".toList
  let koe := Replace koe "\n".toList "".toList
  if koe = "".toList then
    { ret := 0, pSize := none, dlg := d1, events := e1 ++ [Event.MessageBox errNoKoe] }
  else
    let size := r.size
    let wav := r.wav
    let call := Event.Synthe koe d1.m_iSpeed r
    if wav = 0 then
      { ret := 0, pSize := none, dlg := d1
        events := e1 ++ [call, Event.MessageBox (SyntheErrMsg size)] }
    else
      { ret := wav, pSize := some size, dlg := d1, events := e1 ++ [call] }

/-- The handler `CAqTk1AppDlg::OnBnClickedBtnPlay`. -/
def OnBnClickedBtnPlay (r : EngineRet) (d : Dlg) : Dlg × List Event :=
  let e0 := if d.m_wav ≠ 0 then [Event.FreeWave d.m_wav] else []
  let s := Synthe r d
  let d1 := { s.dlg with m_wav := s.ret }
  let e1 := s.events ++ [Event.AssignWav s.ret]
  if d1.m_wav ≠ 0 then
    let d2 := { d1 with playing := none }
    let d3 := { d2 with playing := some d2.m_wav }
    (d3, e0 ++ e1 ++ [Event.PlaySoundStop, Event.PlaySoundAsync d2.m_wav])
  else
    (d1, e0 ++ e1)

/-- The handler `CAqTk1AppDlg::OnBnClickedBtnStop`. -/
def OnBnClickedBtnStop (d : Dlg) : Dlg × List Event :=
  ({ d with playing := none }, [Event.PlaySoundStop])

/-- The handler `CAqTk1AppDlg::OnClose`. -/
def OnClose (d : Dlg) : Dlg × List Event :=
  let e0 := if d.m_wav ≠ 0 then [Event.FreeWave d.m_wav] else []
  let (d1, e1) := UpdateData true d
  (d1, e0 ++ e1 ++ [Event.WindowClose])

/-- What the user can do with the open dialog. -/
inductive Action where
  /-- Type `t` into the phonetic text field. -/
  | EditText (t : CString)
  /-- Drag the speed thumb towards `p`. -/
  | DragSlider (p : Int)
  /-- Press the play button; `r` answers the engine call, if one is made. -/
  | Play (r : EngineRet)
  /-- Press the stop button. -/
  | Stop
deriving DecidableEq, Repr

/-- One user action, dispatched through the message map. -/
def step (a : Action) (d : Dlg) : Dlg × List Event :=
  match a with
  | .EditText t => ({ d with edit := t }, [])
  | .DragSlider p => ({ d with slider := d.slider.SetPos p }, [])
  | .Play r => OnBnClickedBtnPlay r d
  | .Stop => OnBnClickedBtnStop d

/-- A sequence of user actions, with all calls made. -/
def run : List Action → Dlg → Dlg × List Event
  | [], d => (d, [])
  | a :: as, d =>
      let (d1, e1) := step a d
      let (d2, e2) := run as d1
      (d2, e1 ++ e2)

/-- The dialog once shown: constructed and initialised. -/
def shown : Dlg × List Event := OnInitDialog CAqTk1AppDlg

/-- The dialog after the actions `acts`, with all calls made since construction. -/
def opened (acts : List Action) : Dlg × List Event :=
  let (d1, e1) := run acts shown.1
  (d1, shown.2 ++ e1)

/-- A whole session: construction, initialisation, the actions, one window close. -/
def session (acts : List Action) : Dlg × List Event :=
  let (d1, e1) := opened acts
  let (d2, e2) := OnClose d1
  (d2, e1 ++ e2)

/-! ## The command-line sample -/

/-- Replays the calls against the list of live buffers (obtained from the
engine and not yet released): a non-null answer of the engine becomes live, a
release removes its buffer.  The result is `none` as soon as a release names
an address that is not live (NULL, never obtained, or already released);
otherwise it is the list of buffers still live at the end. -/
def ledger : List Nat → List Event → Option (List Nat)
  | live, [] => some live
  | live, Event.Synthe _ _ r :: es => ledger (if r.wav = 0 then live else r.wav :: live) es
  | live, Event.FreeWave p :: es => if p ∈ live then ledger (live.erase p) es else none
  | live, _ :: es => ledger live es

/-- Does the sequence release a buffer while its playback is started and not
stopped?  `started` is the buffer whose asynchronous playback was started and
not stopped so far. -/
def freesPlaying : Option Nat → List Event → Bool
  | _, [] => false
  | _, Event.PlaySoundStop :: es => freesPlaying none es
  | _, Event.PlaySoundAsync p :: es => freesPlaying (some p) es
  | started, Event.FreeWave p :: es => decide (started = some p) || freesPlaying started es
  | started, _ :: es => freesPlaying started es

/-- Is the event a call of `AquesTalk_FreeWave`? -/
def Event.isFreeWave : Event → Bool
  | .FreeWave _ => true
  | _ => false

/-- Is the event an engine call that returned a buffer? -/
def Event.isObtained : Event → Bool
  | .Synthe _ _ r => decide (r.wav ≠ 0)
  | _ => false

/-- The live buffers when the ownership slot `m_wav` holds `w`. -/
def liveOf (w : Nat) : List Nat := if w = 0 then [] else [w]

/-- The check made at one call: no buffer is live when the engine is called,
and when `m_wav` is assigned the live buffers are those of the assigned value. -/
def okAt (live : List Nat) : Event → Bool
  | .Synthe _ _ _ => live.isEmpty
  | .AssignWav w => decide (live = liveOf w)
  | _ => true

/-- Runs `ledger` call by call and checks, before every call and at the end,
that at most one buffer is live and that `okAt` holds. -/
def oneLive : List Nat → List Event → Bool
  | live, [] => decide (live.length ≤ 1)
  | live, e :: es =>
      decide (live.length ≤ 1) && okAt live e &&
        (match ledger live [e] with
         | some l => oneLive l es
         | none => false)

/-- The trackbar as `OnInitDialog` leaves it: range 50..200, position inside. -/
def SliderOK (d : Dlg) : Prop :=
  d.slider.lo = 50 ∧ d.slider.hi = 200 ∧ 50 ≤ d.slider.pos ∧ d.slider.pos ≤ 200

/-! ## Definitions following the specification -/

/-- The five message categories of the specification. -/
inductive Category where
  | undefinedSymbol
  | malformedTag
  | inputTooLong
  | profileError
  | invalidInput
deriving DecidableEq, Repr

/-- The category the specification assigns to a failure code: 105 is an
undefined phonetic symbol, 106 to 108 a malformed tag, 200 to 204 an input
that is too long, 900 to 999 a profile error, anything else invalid input. -/
def specCategory (c : Int) : Category :=
  if c = 105 then .undefinedSymbol
  else if c ∈ [106, 107, 108] then .malformedTag
  else if c ∈ Finset.Icc (200 : Int) 204 then .inputTooLong
  else if c ∈ Finset.Icc (900 : Int) 999 then .profileError
  else .invalidInput

/-- The wording the dialog uses for each category (the text before the code). -/
def categoryText : Category → CString
  | .undefinedSymbol => "ERR: 音声記号列に未定義の読み記号が指定された。".toList
  | .malformedTag => "ERR: 音声記号列のタグの指定が正しくない。".toList
  | .inputTooLong => "ERR: 音声記号列が長すぎる。".toList
  | .profileError => "ERR: Profileの指定エラー".toList
  | .invalidInput => "ERR:音声記号列が正しくない？".toList

/-- The message the specification expects for a failure code: the wording of
its category followed by the code in decimal, in parentheses. -/
def specMessage (c : Int) : CString :=
  categoryText (specCategory c) ++ "(".toList ++ (toString c).toList ++ ")".toList

/-- The text with every carriage return and every line feed removed, the
other characters kept in order. -/
def stripCRLF (t : CString) : CString :=
  t.filter (fun c => c != '\r' && c != '\n')

/-! ## Strings: removing a character -/

theorem ReplaceAux_single (c : Char) (s : CString) :
    ReplaceAux [c] [] 0 s = s.filter (fun x => x != c) := by
  induction s with
  | nil => rfl
  | cons x xs ih =>
    by_cases h : c = x
    · subst h
      simp [ReplaceAux, List.isPrefixOf, ih]
    · have h2 : x ≠ c := fun e => h e.symm
      simp [ReplaceAux, List.isPrefixOf, ih, h, h2]

theorem Replace_single (c : Char) (s : CString) :
    Replace s [c] [] = s.filter (fun x => x != c) := by
  simp [Replace, ReplaceAux_single]

theorem Replace_CRLF (t : CString) :
    Replace (Replace t "\r".toList "".toList) "\n".toList "".toList = stripCRLF t := by
  have h1 : "\r".toList = ['\r'] := rfl
  have h2 : "\n".toList = ['\n'] := rfl
  have h3 : "".toList = [] := rfl
  rw [h1, h2, h3, Replace_single, Replace_single, stripCRLF, List.filter_filter]
  congr 1
  funext x
  exact Bool.and_comm _ _

theorem stripCRLF_eq_nil_iff (t : CString) :
    stripCRLF t = [] ↔ ∀ c ∈ t, c = '\r' ∨ c = '\n' := by
  simp only [stripCRLF, List.filter_eq_nil_iff, Bool.and_eq_true, bne_iff_ne, ne_eq, not_and,
    not_not]
  constructor
  · intro h c hc
    by_cases h1 : c = '\r'
    · exact Or.inl h1
    · exact Or.inr (h c hc h1)
  · intro h c hc h1
    rcases h c hc with h2 | h2
    · exact absurd h2 h1
    · exact h2

/-! ## The pieces of `Synthe` -/

theorem UpdateData_save_fst (d : Dlg) :
    (UpdateData true d).1 = { d with m_strKoe := d.edit, m_iSpeed := d.slider.pos } := by
  unfold UpdateData DoDataExchange
  simp only [if_true]
  split <;> rfl

theorem UpdateData_save_snd (d : Dlg) :
    (UpdateData true d).2 =
      if d.slider.pos < 50 ∨ 200 < d.slider.pos then [Event.RangePrompt 50 200] else [] := by
  unfold UpdateData DoDataExchange
  simp only [if_true]
  split <;> rfl

theorem Synthe_dlg (r : EngineRet) (d : Dlg) : (Synthe r d).dlg = (UpdateData true d).1 := by
  unfold Synthe
  simp only
  split_ifs <;> rfl

theorem Synthe_ret (r : EngineRet) (d : Dlg) :
    (Synthe r d).ret = if stripCRLF d.edit = [] then 0 else r.wav := by
  have hk := Replace_CRLF (UpdateData true d).1.m_strKoe
  rw [UpdateData_save_fst] at hk
  simp only at hk
  unfold Synthe
  simp only [UpdateData_save_fst, hk]
  have h3 : "".toList = [] := rfl
  rw [h3]
  split_ifs with h1 h2 <;> simp_all

theorem Synthe_events (r : EngineRet) (d : Dlg) :
    (Synthe r d).events = (UpdateData true d).2 ++
      (if stripCRLF d.edit = [] then [Event.MessageBox errNoKoe]
       else if r.wav = 0 then
         [Event.Synthe (stripCRLF d.edit) d.slider.pos r, Event.MessageBox (SyntheErrMsg r.size)]
       else [Event.Synthe (stripCRLF d.edit) d.slider.pos r]) := by
  have hk := Replace_CRLF (UpdateData true d).1.m_strKoe
  rw [UpdateData_save_fst] at hk
  simp only at hk
  unfold Synthe
  simp only [UpdateData_save_fst, hk]
  have h3 : "".toList = [] := rfl
  rw [h3]
  split_ifs with h1 h2 <;> rfl

theorem SyntheErrMsg_eq (c : Int) : SyntheErrMsg c = specMessage c := by
  unfold SyntheErrMsg specMessage specCategory
  simp only [List.mem_cons, List.mem_singleton, Finset.mem_Icc, List.not_mem_nil, or_false]
  split_ifs <;> rfl

theorem categoryText_injective : Function.Injective categoryText := by
  intro a b h
  cases a <;> cases b <;> first | rfl | (exfalso; revert h; decide)

/-! ## The ledger along a sequence of calls -/

theorem ledger_cons (live : List Nat) (e : Event) (es : List Event) :
    ledger live (e :: es) = (ledger live [e]).bind (fun l => ledger l es) := by
  cases e <;> simp [ledger]
  · split_ifs <;> simp

theorem ledger_append (live : List Nat) (e1 e2 : List Event) :
    ledger live (e1 ++ e2) = (ledger live e1).bind (fun l => ledger l e2) := by
  induction e1 generalizing live with
  | nil => simp [ledger]
  | cons e es ih =>
    rw [List.cons_append, ledger_cons, ledger_cons live e es]
    cases h : ledger live [e] with
    | none => simp
    | some l => simp [ih]

theorem oneLive_append (live l : List Nat) (e1 e2 : List Event)
    (h1 : oneLive live e1 = true) (hl : ledger live e1 = some l) (h2 : oneLive l e2 = true) :
    oneLive live (e1 ++ e2) = true := by
  induction e1 generalizing live with
  | nil =>
    simp [ledger] at hl
    subst hl
    simpa using h2
  | cons e es ih =>
    rw [ledger_cons] at hl
    simp only [oneLive, Bool.and_eq_true] at h1
    cases h : ledger live [e] with
    | none => simp [h] at hl
    | some l1 =>
      simp only [h] at h1 hl
      simp only [Option.some_bind] at hl
      simp only [List.cons_append, oneLive, Bool.and_eq_true, h]
      exact ⟨h1.1, ih l1 h1.2 hl⟩

theorem oneLive_sound (live : List Nat) (es : List Event) (h : oneLive live es = true) (k : Nat) :
    ∃ l, ledger live (es.take k) = some l ∧ l.length ≤ 1 ∧
      (∀ koe s r, es[k]? = some (Event.Synthe koe s r) → l = []) ∧
      (∀ w, es[k]? = some (Event.AssignWav w) → l = liveOf w) := by
  induction es generalizing live k with
  | nil =>
    simp only [oneLive, decide_eq_true_eq] at h
    exact ⟨live, by simp [ledger], h, by simp, by simp⟩
  | cons e es ih =>
    simp only [oneLive, Bool.and_eq_true, decide_eq_true_eq] at h
    cases k with
    | zero =>
      refine ⟨live, by simp [ledger], h.1.1, ?_, ?_⟩
      · intro koe s r he
        simp only [List.getElem?_cons_zero, Option.some.injEq] at he
        subst he
        simpa [okAt] using h.1.2
      · intro w he
        simp only [List.getElem?_cons_zero, Option.some.injEq] at he
        subst he
        simpa [okAt] using h.1.2
    | succ k =>
      cases hl : ledger live [e] with
      | none => simp [hl] at h
      | some l1 =>
        simp only [hl] at h
        obtain ⟨l, h1, h2, h3, h4⟩ := ih l1 h.2 k
        refine ⟨l, ?_, h2, ?_, ?_⟩
        · rw [List.take_succ_cons, ledger_cons, hl]
          simpa using h1
        · simpa using h3
        · simpa using h4

/-! ## The handlers -/

theorem Play_events (r : EngineRet) (d : Dlg) :
    (OnBnClickedBtnPlay r d).2 =
      (if d.m_wav ≠ 0 then [Event.FreeWave d.m_wav] else []) ++
        ((Synthe r d).events ++ [Event.AssignWav (Synthe r d).ret]) ++
        (if (Synthe r d).ret ≠ 0 then
          [Event.PlaySoundStop, Event.PlaySoundAsync (Synthe r d).ret] else []) := by
  unfold OnBnClickedBtnPlay
  simp only
  split_ifs <;> simp

theorem Play_m_wav (r : EngineRet) (d : Dlg) :
    (OnBnClickedBtnPlay r d).1.m_wav = (Synthe r d).ret := by
  unfold OnBnClickedBtnPlay
  simp only
  split_ifs <;> rfl

theorem Play_slider (r : EngineRet) (d : Dlg) :
    (OnBnClickedBtnPlay r d).1.slider = d.slider := by
  unfold OnBnClickedBtnPlay
  simp only [Synthe_dlg, UpdateData_save_fst]
  split_ifs <;> rfl

theorem Close_events (d : Dlg) :
    (OnClose d).2 =
      (if d.m_wav ≠ 0 then [Event.FreeWave d.m_wav] else []) ++ (UpdateData true d).2 ++
        [Event.WindowClose] := by
  rfl

theorem run_cons (a : Action) (as : List Action) (d : Dlg) :
    run (a :: as) d = ((run as (step a d).1).1, (step a d).2 ++ (run as (step a d).1).2) := by
  rfl

theorem shown_m_wav : shown.1.m_wav = 0 := by decide

theorem shown_events :
    shown.2 = [Event.SetDevKey "xxxxxx".toList, Event.SetUsrKey "yyyyyy".toList] := by decide

theorem shown_SliderOK : SliderOK shown.1 := by
  unfold SliderOK
  decide

theorem opened_eq (acts : List Action) :
    opened acts = ((run acts shown.1).1, shown.2 ++ (run acts shown.1).2) := by
  rfl

theorem session_events (acts : List Action) :
    (session acts).2 = (opened acts).2 ++ (OnClose (opened acts).1).2 := by
  rfl

/-! ## Ownership of the buffer -/

theorem step_ledger (a : Action) (d : Dlg) :
    ledger (liveOf d.m_wav) (step a d).2 = some (liveOf (step a d).1.m_wav) ∧
      oneLive (liveOf d.m_wav) (step a d).2 = true := by
  cases a with
  | EditText t => simp [step, ledger, oneLive, liveOf]; split_ifs <;> simp
  | DragSlider p => simp [step, ledger, oneLive, liveOf]; split_ifs <;> simp
  | Stop =>
    simp [step, OnBnClickedBtnStop, ledger, oneLive, okAt, liveOf]
    split_ifs <;> simp [ledger]
  | Play r =>
    simp only [step, Play_events, Play_m_wav, Synthe_events, Synthe_ret, UpdateData_save_snd]
    split_ifs <;> simp_all [ledger, oneLive, okAt, liveOf]

theorem run_ledger (acts : List Action) (d : Dlg) :
    ledger (liveOf d.m_wav) (run acts d).2 = some (liveOf (run acts d).1.m_wav) ∧
      oneLive (liveOf d.m_wav) (run acts d).2 = true := by
  induction acts generalizing d with
  | nil => simp [run, ledger, oneLive, liveOf]; split_ifs <;> simp
  | cons a as ih =>
    obtain ⟨h1, h2⟩ := step_ledger a d
    obtain ⟨h3, h4⟩ := ih (step a d).1
    rw [run_cons]
    refine ⟨?_, oneLive_append _ _ _ _ h2 h1 h4⟩
    simp only [ledger_append, h1, Option.some_bind, h3]

theorem Close_ledger (d : Dlg) :
    ledger (liveOf d.m_wav) (OnClose d).2 = some [] ∧
      oneLive (liveOf d.m_wav) (OnClose d).2 = true := by
  simp only [Close_events, UpdateData_save_snd]
  split_ifs <;> simp_all [ledger, oneLive, okAt, liveOf]

theorem opened_ledger (acts : List Action) :
    ledger [] (opened acts).2 = some (liveOf (opened acts).1.m_wav) ∧
      oneLive [] (opened acts).2 = true := by
  have h := run_ledger acts shown.1
  rw [shown_m_wav] at h
  have h0 : liveOf 0 = [] := rfl
  rw [h0] at h
  rw [opened_eq, shown_events]
  simp only [List.cons_append, List.nil_append]
  refine ⟨?_, ?_⟩
  · simpa [ledger] using h.1
  · simpa [oneLive, ledger, okAt] using h.2

theorem session_ledger (acts : List Action) :
    ledger [] (session acts).2 = some [] ∧ oneLive [] (session acts).2 = true := by
  obtain ⟨h1, h2⟩ := opened_ledger acts
  obtain ⟨h3, h4⟩ := Close_ledger (opened acts).1
  rw [session_events]
  refine ⟨?_, oneLive_append _ _ _ _ h2 h1 h4⟩
  simp only [ledger_append, h1, Option.some_bind, h3]

theorem ledger_count (live : List Nat) (es : List Event) (l : List Nat)
    (h : ledger live es = some l) :
    l.length + es.countP Event.isFreeWave = live.length + es.countP Event.isObtained := by
  induction es generalizing live with
  | nil =>
    simp [ledger] at h
    subst h
    simp
  | cons e es ih =>
    cases e with
    | Synthe koe s r =>
      simp only [ledger] at h
      have := ih _ h
      by_cases hw : r.wav = 0
      · simp [hw, Event.isFreeWave, Event.isObtained] at this ⊢
        exact this
      · simp [hw, Event.isFreeWave, Event.isObtained] at this ⊢
        omega
    | FreeWave p =>
      simp only [ledger] at h
      by_cases hp : p ∈ live
      · rw [if_pos hp] at h
        have := ih _ h
        rw [List.length_erase_of_mem hp] at this
        have hpos : 0 < live.length := List.length_pos_of_mem hp
        simp [Event.isFreeWave, Event.isObtained] at this ⊢
        omega
      · simp [hp] at h
    | _ =>
      simp only [ledger] at h
      have := ih _ h
      simpa [Event.isFreeWave, Event.isObtained] using this

/-! ## Speed passed to the engine -/

theorem step_speed (a : Action) (d : Dlg) (hd : SliderOK d) :
    SliderOK (step a d).1 ∧
      ∀ koe s r, Event.Synthe koe s r ∈ (step a d).2 → 50 ≤ s ∧ s ≤ 200 := by
  obtain ⟨h1, h2, h3, h4⟩ := hd
  cases a with
  | EditText t => exact ⟨⟨h1, h2, h3, h4⟩, by simp [step]⟩
  | DragSlider p =>
    refine ⟨?_, by simp [step]⟩
    simp only [step, SliderOK, Slider.SetPos, Slider.clamp, h1, h2]
    refine ⟨trivial, trivial, ?_, ?_⟩ <;> split_ifs <;> omega
  | Stop => exact ⟨⟨h1, h2, h3, h4⟩, by simp [step, OnBnClickedBtnStop]⟩
  | Play r0 =>
    refine ⟨?_, ?_⟩
    · simp only [step, SliderOK, Play_slider]
      exact ⟨h1, h2, h3, h4⟩
    · intro koe s r hmem
      simp only [step, Play_events, Synthe_events, Synthe_ret, UpdateData_save_snd] at hmem
      have hs : s = d.slider.pos := by
        split_ifs at hmem <;> simp at hmem <;> exact hmem.2.1
      subst hs
      exact ⟨h3, h4⟩

theorem run_speed (acts : List Action) (d : Dlg) (hd : SliderOK d) :
    SliderOK (run acts d).1 ∧
      ∀ koe s r, Event.Synthe koe s r ∈ (run acts d).2 → 50 ≤ s ∧ s ≤ 200 := by
  induction acts generalizing d with
  | nil => exact ⟨hd, by simp [run]⟩
  | cons a as ih =>
    obtain ⟨h1, h2⟩ := step_speed a d hd
    obtain ⟨h3, h4⟩ := ih (step a d).1 h1
    rw [run_cons]
    refine ⟨h3, ?_⟩
    intro koe s r hmem
    rcases List.mem_append.mp hmem with h | h
    · exact h2 koe s r h
    · exact h4 koe s r h

/-! ## The claims about `Synthe` -/

/-- C1: when the engine is called and answers NULL with code `c`, `Synthe`
shows exactly one message box, with the wording of the category the
specification gives to `c` (105 undefined symbol, 106 to 108 malformed tag,
200 to 204 too long, 900 to 999 profile error, anything else invalid input)
followed by `c` in decimal; the five wordings are pairwise different and the
decimal text of `c` occurs in the message. -/
theorem Synthe_failure_message (r : EngineRet) (d : Dlg)
    (hk : stripCRLF d.edit ≠ []) (hw : r.wav = 0) :
    (Synthe r d).events.filter Event.isMessageBox = [Event.MessageBox (specMessage r.size)] ∧
    (Synthe r d).ret = 0 ∧
    specMessage r.size
      = categoryText (specCategory r.size) ++ "(".toList ++ (toString r.size).toList ++ ")".toList ∧
    (toString r.size).toList <:+: specMessage r.size ∧
    Function.Injective categoryText ∧
    (specCategory r.size = .undefinedSymbol ↔ r.size = 105) ∧
    (specCategory r.size = .malformedTag ↔ r.size = 106 ∨ r.size = 107 ∨ r.size = 108) ∧
    (specCategory r.size = .inputTooLong ↔ 200 ≤ r.size ∧ r.size ≤ 204) ∧
    (specCategory r.size = .profileError ↔ 900 ≤ r.size ∧ r.size ≤ 999) ∧
    (specCategory r.size = .invalidInput ↔
      r.size < 105 ∨ (108 < r.size ∧ r.size < 200) ∨ (204 < r.size ∧ r.size < 900) ∨
        999 < r.size) := by
  refine ⟨?_, ?_, rfl, ?_, categoryText_injective, ?_⟩
  · rw [Synthe_events, UpdateData_save_snd, if_neg hk, if_pos hw, SyntheErrMsg_eq]
    split_ifs <;> simp [Event.isMessageBox]
  · rw [Synthe_ret, if_neg hk, hw]
  · exact ⟨categoryText (specCategory r.size) ++ "(".toList, ")".toList, by simp [specMessage]⟩
  · unfold specCategory
    simp only [List.mem_cons, List.mem_singleton, Finset.mem_Icc, List.not_mem_nil, or_false]
    split_ifs <;> simp <;> omega

/-- Witness of C1 at the code 107 and the text "a". -/
theorem Synthe_failure_message_witness :
    stripCRLF "a".toList ≠ [] ∧ (⟨0, 107⟩ : EngineRet).wav = 0 ∧
    (Synthe ⟨0, 107⟩ { CAqTk1AppDlg with edit := "a".toList }).events.filter Event.isMessageBox
      = [Event.MessageBox "ERR: 音声記号列のタグの指定が正しくない。(107)".toList] :=
  ⟨by decide, rfl,
   (Synthe_failure_message ⟨0, 107⟩ { CAqTk1AppDlg with edit := "a".toList }
    (by decide) rfl).1⟩

/-- C2: the string `Synthe` passes to the engine is the text of the edit field
with every carriage return and line feed removed and the rest kept in order;
it holds no carriage return and no line feed, and it is the text itself when
the text holds neither. -/
theorem Synthe_passes_stripped_text (r : EngineRet) (d : Dlg) (koe : CString) (iSpeed : Int)
    (ret : EngineRet) (h : Event.Synthe koe iSpeed ret ∈ (Synthe r d).events) :
    koe = stripCRLF d.edit ∧ '\r' ∉ koe ∧ '\n' ∉ koe ∧
      ('\r' ∉ d.edit → '\n' ∉ d.edit → koe = d.edit) := by
  have hkoe : koe = stripCRLF d.edit := by
    rw [Synthe_events, UpdateData_save_snd] at h
    split_ifs at h <;> simp at h <;> exact h.1
  subst hkoe
  refine ⟨rfl, ?_, ?_, ?_⟩
  · simp [stripCRLF]
  · simp [stripCRLF]
  · intro h1 h2
    unfold stripCRLF
    rw [List.filter_eq_self]
    intro c hc
    have e1 : c ≠ '\r' := fun e => h1 (e ▸ hc)
    have e2 : c ≠ '\n' := fun e => h2 (e ▸ hc)
    simp [e1, e2]

/-- Witness of C2 at the text "a", CR, LF, "b". -/
theorem Synthe_passes_stripped_text_witness :
    Event.Synthe "ab".toList 0 ⟨1000, 44⟩ ∈
      (Synthe ⟨1000, 44⟩ { CAqTk1AppDlg with edit := "a\r\nb".toList }).events ∧
    "ab".toList = stripCRLF "a\r\nb".toList :=
  ⟨by decide,
   (Synthe_passes_stripped_text ⟨1000, 44⟩ { CAqTk1AppDlg with edit := "a\r\nb".toList }
    "ab".toList 0 ⟨1000, 44⟩ (by decide)).1⟩

/-- C3: a text is empty after stripping exactly when it consists of carriage
returns and line feeds only; for such a text, whatever the speed, `Synthe`
makes no engine call, shows the message for a missing phonetic string and
returns NULL; for any other text it calls the engine exactly once. -/
theorem Synthe_empty_input (r : EngineRet) (d : Dlg) :
    (stripCRLF d.edit = [] ↔ ∀ c ∈ d.edit, c = '\r' ∨ c = '\n') ∧
    (stripCRLF d.edit = [] →
      (Synthe r d).ret = 0 ∧ (Synthe r d).events.countP Event.isSynthe = 0 ∧
        (Synthe r d).events.filter Event.isMessageBox = [Event.MessageBox errNoKoe]) ∧
    (stripCRLF d.edit ≠ [] → (Synthe r d).events.countP Event.isSynthe = 1) := by
  refine ⟨stripCRLF_eq_nil_iff d.edit, ?_, ?_⟩
  · intro hk
    rw [Synthe_ret, Synthe_events, UpdateData_save_snd, if_pos hk, if_pos hk]
    refine ⟨rfl, ?_, ?_⟩ <;> split_ifs <;> simp [Event.isSynthe, Event.isMessageBox]
  · intro hk
    rw [Synthe_events, UpdateData_save_snd, if_neg hk]
    split_ifs <;> simp [Event.isSynthe]

/-- Witness of C3 at a text of two line breaks and at the text "a". -/
theorem Synthe_empty_input_witness :
    ((Synthe ⟨1000, 44⟩ { CAqTk1AppDlg with edit := "\r\n\n".toList }).ret = 0 ∧
      (Synthe ⟨1000, 44⟩ { CAqTk1AppDlg with edit := "\r\n\n".toList }).events.countP
        Event.isSynthe = 0 ∧
      (Synthe ⟨1000, 44⟩ { CAqTk1AppDlg with edit := "\r\n\n".toList }).events.filter
        Event.isMessageBox = [Event.MessageBox errNoKoe]) ∧
    (Synthe ⟨1000, 44⟩ { CAqTk1AppDlg with edit := "a".toList }).events.countP
      Event.isSynthe = 1 :=
  ⟨(Synthe_empty_input ⟨1000, 44⟩ { CAqTk1AppDlg with edit := "\r\n\n".toList }).2.1 (by decide),
   (Synthe_empty_input ⟨1000, 44⟩ { CAqTk1AppDlg with edit := "a".toList }).2.2 (by decide)⟩

/-! ## The command-line sample -/

/-- C4: over a whole session (construction, initialisation, any user actions
with any engine answers, one window close) every release names a buffer that
is live at that moment (never NULL, never an address not obtained, never a
buffer already released), no buffer is live at the end, and the number of
releases equals the number of buffers the engine returned. -/
theorem session_releases_each_buffer_once (acts : List Action) :
    ledger [] (session acts).2 = some [] ∧
      (session acts).2.countP Event.isFreeWave = (session acts).2.countP Event.isObtained := by
  have h := (session_ledger acts).1
  refine ⟨h, ?_⟩
  have hc := ledger_count [] (session acts).2 [] h
  simpa using hc

/-- C7: at every point of a session at most one buffer is live; no buffer is
live when the engine is called, and when `m_wav` is assigned the only live
buffer is the assigned one.  The second of two consecutive play actions starts
by releasing the buffer the first one obtained. -/
theorem at_most_one_buffer_live (acts : List Action) (k : Nat) (d : Dlg) (r1 r2 : EngineRet) :
    (∃ l, ledger [] ((session acts).2.take k) = some l ∧ l.length ≤ 1 ∧
      (∀ koe s r, (session acts).2[k]? = some (Event.Synthe koe s r) → l = []) ∧
      (∀ w, (session acts).2[k]? = some (Event.AssignWav w) → l = if w = 0 then [] else [w])) ∧
    (stripCRLF d.edit ≠ [] → r1.wav ≠ 0 →
      (OnBnClickedBtnPlay r2 (OnBnClickedBtnPlay r1 d).1).2.head? =
        some (Event.FreeWave r1.wav)) := by
  constructor
  · exact oneLive_sound [] (session acts).2 (session_ledger acts).2 k
  · intro hk hw
    rw [Play_events r2, Play_m_wav, Synthe_ret, if_neg hk, if_pos hw]
    rfl

/-- Witness of C7: two consecutive successful play actions; call number 7 of
the session is the second engine call, and call number 6 released the first
buffer. -/
theorem at_most_one_buffer_live_witness :
    (∃ l, ledger []
        ((session [.Play ⟨1000, 44⟩, .Play ⟨2000, 44⟩]).2.take 7) = some l ∧ l = []) ∧
    (OnBnClickedBtnPlay ⟨2000, 44⟩ (OnBnClickedBtnPlay ⟨1000, 44⟩ shown.1).1).2.head? =
      some (Event.FreeWave 1000) := by
  have h := at_most_one_buffer_live [.Play ⟨1000, 44⟩, .Play ⟨2000, 44⟩] 7 shown.1
    ⟨1000, 44⟩ ⟨2000, 44⟩
  obtain ⟨⟨l, h1, _, h3, _⟩, h5⟩ := h
  exact ⟨⟨l, h1, h3 CAqTk1AppDlg.m_strKoe 100 ⟨2000, 44⟩ (by decide)⟩,
    h5 (by decide) (by decide)⟩

/-- C10: every engine call of a session passes a speed between 50 and 200,
hence inside the range 50..300 of the interface and never the value 0 of the
constructor. -/
theorem Synthe_speed_in_slider_range (acts : List Action) (koe : CString) (s : Int)
    (r : EngineRet) (h : Event.Synthe koe s r ∈ (session acts).2) :
    50 ≤ s ∧ s ≤ 200 ∧ s ≤ 300 ∧ s ≠ 0 := by
  have key : 50 ≤ s ∧ s ≤ 200 := by
    rw [session_events, opened_eq, shown_events, Close_events, UpdateData_save_snd] at h
    have hr := (run_speed acts shown.1 shown_SliderOK).2 koe s r
    simp only [List.mem_append, List.mem_cons, List.mem_singleton, List.not_mem_nil,
      or_false, false_or] at h
    rcases h with (h | h) | h
    · rcases h with h | h <;> cases h
    · exact hr h
    · rcases h with (h | h) | h
      · split_ifs at h <;> simp at h
      · split_ifs at h <;> simp at h
      · cases h
  omega

/-- Witness of C10: the slider dragged far right, then one play action. -/
theorem Synthe_speed_in_slider_range_witness :
    Event.Synthe CAqTk1AppDlg.m_strKoe 200 ⟨1000, 44⟩ ∈
      (session [.DragSlider 1000, .Play ⟨1000, 44⟩]).2 ∧
    ((50 : Int) ≤ 200 ∧ (200 : Int) ≤ 200 ∧ (200 : Int) ≤ 300 ∧ (200 : Int) ≠ 0) :=
  ⟨by decide,
   Synthe_speed_in_slider_range [.DragSlider 1000, .Play ⟨1000, 44⟩]
    CAqTk1AppDlg.m_strKoe 200 ⟨1000, 44⟩ (by decide)⟩

/-- C5: in the second of two consecutive successful play actions the buffer of
the first is released while its playback is started and not stopped; the stop
comes only after the engine call. -/
theorem Play_frees_buffer_still_playing :
    (opened [.Play ⟨1000, 44⟩]).1.playing = some 1000 ∧
    (OnBnClickedBtnPlay ⟨2000, 44⟩ (opened [.Play ⟨1000, 44⟩]).1).2 =
      [Event.FreeWave 1000,
       Event.Synthe CAqTk1AppDlg.m_strKoe 100 ⟨2000, 44⟩,
       Event.AssignWav 2000,
       Event.PlaySoundStop,
       Event.PlaySoundAsync 2000] ∧
    freesPlaying none (opened [.Play ⟨1000, 44⟩, .Play ⟨2000, 44⟩]).2 = true := by
  decide

/-- C6: closing the window while a buffer is held and playing releases the
buffer and makes no call that stops playback; playback is still started
afterwards. -/
theorem OnClose_leaves_playback_running :
    (opened [.Play ⟨1000, 44⟩]).1.m_wav = 1000 ∧
    (opened [.Play ⟨1000, 44⟩]).1.playing = some 1000 ∧
    (OnClose (opened [.Play ⟨1000, 44⟩]).1).2 = [Event.FreeWave 1000, Event.WindowClose] ∧
    (OnClose (opened [.Play ⟨1000, 44⟩]).1).1.playing = some 1000 := by
  decide

/-- C9: a play action that fails (engine answer NULL with code 105, or an
empty text) while an earlier buffer is playing shows a message and leaves
`m_wav` NULL, but releases the earlier buffer without stopping its playback. -/
theorem failed_Play_leaves_playback_running :
    (OnBnClickedBtnPlay ⟨0, 105⟩ (opened [.Play ⟨1000, 44⟩]).1).2 =
      [Event.FreeWave 1000,
       Event.Synthe CAqTk1AppDlg.m_strKoe 100 ⟨0, 105⟩,
       Event.MessageBox "ERR: 音声記号列に未定義の読み記号が指定された。(105)".toList,
       Event.AssignWav 0] ∧
    (OnBnClickedBtnPlay ⟨0, 105⟩ (opened [.Play ⟨1000, 44⟩]).1).1.m_wav = 0 ∧
    (OnBnClickedBtnPlay ⟨0, 105⟩ (opened [.Play ⟨1000, 44⟩]).1).1.playing = some 1000 ∧
    (OnBnClickedBtnPlay ⟨0, 105⟩ (opened [.Play ⟨1000, 44⟩, .EditText []]).1).2 =
      [Event.FreeWave 1000, Event.MessageBox errNoKoe, Event.AssignWav 0] ∧
    (OnBnClickedBtnPlay ⟨0, 105⟩ (opened [.Play ⟨1000, 44⟩, .EditText []]).1).1.playing =
      some 1000 := by
  decide

end AquesTalk
